import Mathlib

/-!
Verification of the PingTools repository (client `Pinger` loss/latency
estimator, client TCP reconnect supervisor, server session registry).

The definitions below are a shallow embedding of `src/Client.cpp` and
`src/Server.cpp`.  Machine integers are modelled as `Nat` with explicit
reductions modulo `2^32` (`uint32_t`) and `2^64` (`Time::Tick`, `size_t`)
at every operation where the C++ arithmetic can wrap.
-/

namespace PingTools

/-- Modulus of `uint32_t` arithmetic. -/
def U32 : Nat := 4294967296

/-- Modulus of `uint64_t` / `size_t` / `Time::Tick` arithmetic. -/
def U64 : Nat := 18446744073709551616

/-- The wire record `PingPacket { uint32_t Seq; Time::Tick SendTime }`. -/
structure PingPacket where
  seq : Nat
  sendTime : Nat
deriving DecidableEq

/-- The snapshot record `PingStatistic` returned by `Pinger::GetStatistic`. -/
structure PingStatistic where
  totalPacket : Nat
  packetLost : Nat
  availablePacket : Nat
  latencyTotal : Nat
  maxLatency : Nat
  minLatency : Nat
deriving DecidableEq

/-- State of `class Pinger` (the `LossLatencyEstimator`): the two construction
parameters, the send scheduler, the sliding window of booleans (oldest first,
`true` = acknowledged), and the six counters. -/
structure Pinger where
  interval : Nat
  timeout : Nat
  nextSendTime : Nat
  nextSeq : Nat
  pingWindow : List Bool
  totalPacket : Nat
  packetLost : Nat
  availablePacket : Nat
  latencyTotal : Nat
  maxLatency : Nat
  minLatency : Nat
deriving DecidableEq

/-- `Pinger::Pinger(interval, timeout)` together with the member initializers:
everything zero except `m_uMinLatency = numeric_limits of uint32_t ::max()`. -/
def Pinger.init (interval timeout : Nat) : Pinger :=
  ⟨interval, timeout, 0, 0, [], 0, 0, 0, 0, 0, U32 - 1⟩

/-- The timeout-eviction loop at the head of `Pinger::Update`:
`while (!window.empty() && window.size() * interval >= timeout)` pop the front
entry, incrementing `m_uPacketLost` (a `uint32_t`) when it was unacknowledged. -/
def evictLoop (interval timeout : Nat) : List Bool → Nat → List Bool × Nat
  | [], lost => ([], lost)
  | b :: rest, lost =>
    if (b :: rest).length * interval ≥ timeout then
      evictLoop interval timeout rest (if b then lost else (lost + 1) % U32)
    else (b :: rest, lost)

/-- `Pinger::Update(now)`: when `m_ullNextSendTime <= now`, evict over-sized
window entries (scoring unacknowledged ones as lost), emit a packet carrying
`m_uNextSeq++` and `SendTime = now`, append a `false` slot, bump
`m_uTotalPacket` and reschedule `m_ullNextSendTime = now + interval`. -/
def Pinger.update (s : Pinger) (now : Nat) : Option PingPacket × Pinger :=
  if s.nextSendTime ≤ now then
    let er := evictLoop s.interval s.timeout s.pingWindow s.packetLost
    (some ⟨s.nextSeq, now⟩,
      { s with
        pingWindow := er.1 ++ [false]
        nextSeq := (s.nextSeq + 1) % U32
        totalPacket := (s.totalPacket + 1) % U32
        packetLost := er.2
        nextSendTime := (now + s.interval) % U64 })
  else (none, s)

/-- The window index computed at the head of `Pinger::Recv`:
`auto offset = m_stPingWindow.size() - (m_uNextSeq - packet.Seq)`, where the
inner subtraction wraps in `uint32_t` and the outer one wraps in `size_t`. -/
def recvOffset (s : Pinger) (p : PingPacket) : Nat :=
  (s.pingWindow.length + U64 - (s.nextSeq + U32 - p.seq % U32) % U32) % U64

/-- `Pinger::Recv(packet)`: return unchanged when `offset >= window.size()`
or the slot is already acknowledged, otherwise mark the slot and update the
latency counters with `elapsed = uint32_t(now - packet.SendTime)`.  The
receive time `now` is read from the clock inside the C++ function; it is
passed explicitly here. -/
def Pinger.recv (s : Pinger) (now : Nat) (p : PingPacket) : Pinger :=
  if s.pingWindow.length ≤ recvOffset s p then s
  else if s.pingWindow.getD (recvOffset s p) false then s
  else
    let elapsed := ((now % U64 + U64 - p.sendTime % U64) % U64) % U32
    { s with
      pingWindow := s.pingWindow.set (recvOffset s p) true
      availablePacket := (s.availablePacket + 1) % U32
      latencyTotal := (s.latencyTotal + elapsed) % U32
      maxLatency := max s.maxLatency elapsed
      minLatency := min s.minLatency elapsed }

/-- `Pinger::GetStatistic()`: copies the counters, reporting max/min latency
as `0` while `m_uAvailablePacket == 0`. -/
def Pinger.getStatistic (s : Pinger) : PingStatistic :=
  ⟨s.totalPacket, s.packetLost, s.availablePacket, s.latencyTotal,
    if s.availablePacket = 0 then 0 else s.maxLatency,
    if s.availablePacket = 0 then 0 else s.minLatency⟩

/-- `Pinger::Reset()`: clears the window and every counter and rewinds
`m_ullNextSendTime` to `0`; `m_uNextSeq` is left untouched. -/
def Pinger.reset (s : Pinger) : Pinger :=
  { s with
    pingWindow := []
    nextSendTime := 0
    totalPacket := 0
    packetLost := 0
    availablePacket := 0
    latencyTotal := 0
    maxLatency := 0
    minLatency := U32 - 1 }

/-- One externally visible operation on a `Pinger`. -/
inductive PingerOp where
  | update (now : Nat)
  | recv (now : Nat) (p : PingPacket)
  | reset
deriving DecidableEq

/-- State effect of one operation (the packet possibly returned by `Update`
is dropped here; `Pinger.update` itself exposes it). -/
def PingerOp.apply (s : Pinger) : PingerOp → Pinger
  | .update now => (s.update now).2
  | .recv now p => s.recv now p
  | .reset => s.reset

/-- Run a sequence of operations left to right. -/
def Pinger.run (s : Pinger) : List PingerOp → Pinger
  | [] => s
  | op :: rest => Pinger.run (PingerOp.apply s op) rest

/-- Number of unacknowledged (still `false`) slots in a window. -/
def countFalse : List Bool → Nat
  | [] => 0
  | b :: rest => (if b then 0 else 1) + countFalse rest

/-- The concrete scenario of the spec's worked example: probes at
t = 0, 1000, 2000, 3000, 4000, an acknowledgment of seq 2 at t = 2100,
then a tick at t = 6000 (Interval 1000, Timeout 5000). -/
def c2ops : List PingerOp :=
  [PingerOp.update 0, PingerOp.update 1000, PingerOp.update 2000,
   PingerOp.update 3000, PingerOp.update 4000,
   PingerOp.recv 2100 ⟨2, 2000⟩, PingerOp.update 6000]

/-- `Client`'s TCP channel states `STATE_TCP_NOT_CONNECT / CONNECTING /
CONNECTED`. -/
def STATE_TCP_NOT_CONNECT : Nat := 0

/-- `STATE_TCP_CONNECTING = 1`. -/
def STATE_TCP_CONNECTING : Nat := 1

/-- `STATE_TCP_CONNECTED = 2`. -/
def STATE_TCP_CONNECTED : Nat := 2

/-- Mutable state of `class Client`: the TCP channel state machine, the two
deadlines, the two estimators, and a generation counter standing for the
identity of the current `m_stTcpSocket` object (`TcpSocket::Create()` bumps
it; the constructor creates generation 0). -/
structure ClientState where
  tcpState : Nat
  nextTryConnectTime : Nat
  nextPingStatTime : Nat
  tcpPinger : Pinger
  udpPinger : Pinger
  tcpSocketGen : Nat
deriving DecidableEq

/-- `Client`'s constructor: both pingers built from the configured interval
and timeout, every deadline zero, TCP not connected, first socket object. -/
def clientInit (interval timeout : Nat) : ClientState :=
  ⟨STATE_TCP_NOT_CONNECT, 0, 0,
   Pinger.init interval timeout, Pinger.init interval timeout, 0⟩

/-- Externally visible side effects of the client callbacks. -/
inductive ClientEffect where
  | tcpConnect
  | tcpWrite (p : PingPacket)
  | udpSend (p : PingPacket)
  | tcpStartRead
  | tcpClose
  | createTcpSocket
  | bindTcpEvent
  | report (tcp udp : PingStatistic)
deriving DecidableEq

/-- `Client::OnTick`: try to connect when disconnected and past the backoff
deadline; call `Update` on both pingers unconditionally; write the TCP probe
only in state `CONNECTED`; always send the UDP probe; once per reporting
period snapshot both statistics and reset both pingers. -/
def clientOnTick (c : ClientState) (now : Nat) : ClientState × List ClientEffect :=
  let step1 :=
    if c.tcpState = STATE_TCP_NOT_CONNECT ∧ c.nextTryConnectTime ≤ now then
      ({ c with tcpState := STATE_TCP_CONNECTING }, [ClientEffect.tcpConnect])
    else (c, ([] : List ClientEffect))
  let c1 := step1.1
  let ru := c1.tcpPinger.update now
  let rv := c1.udpPinger.update now
  let c2 := { c1 with tcpPinger := ru.2, udpPinger := rv.2 }
  let e2 :=
    match ru.1 with
    | some p =>
      if c2.tcpState = STATE_TCP_CONNECTED then [ClientEffect.tcpWrite p]
      else ([] : List ClientEffect)
    | none => ([] : List ClientEffect)
  let e3 :=
    match rv.1 with
    | some p => [ClientEffect.udpSend p]
    | none => ([] : List ClientEffect)
  if c2.nextPingStatTime ≤ now then
    ({ c2 with
        nextPingStatTime := (now + 60000) % U64
        tcpPinger := ru.2.reset
        udpPinger := rv.2.reset },
     step1.2 ++ e2 ++ e3 ++
       [ClientEffect.report ru.2.getStatistic rv.2.getStatistic])
  else (c2, step1.2 ++ e2 ++ e3)

/-- `Client::OnTcpConnected(err)`: on success enter `CONNECTED`, reset the
TCP pinger and start reading; on failure only rearm the backoff deadline and
fall back to `NOT_CONNECT` — the socket object is kept. -/
def clientOnTcpConnected (c : ClientState) (now : Nat) (err : Int) :
    ClientState × List ClientEffect :=
  if err = 0 then
    ({ c with tcpState := STATE_TCP_CONNECTED, tcpPinger := c.tcpPinger.reset },
     [ClientEffect.tcpStartRead])
  else
    ({ c with
        nextTryConnectTime := (now + 10000) % U64
        tcpState := STATE_TCP_NOT_CONNECT }, [])

/-- `Client::OnTcpError(err)`: replace the socket with a freshly created one,
rebind the TCP callbacks, fall back to `NOT_CONNECT` and rearm the backoff. -/
def clientOnTcpError (c : ClientState) (now : Nat) :
    ClientState × List ClientEffect :=
  ({ c with
      tcpSocketGen := c.tcpSocketGen + 1
      tcpState := STATE_TCP_NOT_CONNECT
      nextTryConnectTime := (now + 10000) % U64 },
   [ClientEffect.createTcpSocket, ClientEffect.bindTcpEvent])

/-- `Client::OnTcpDataEof()`: close the current socket, then replace it with
a freshly created one, rebind the TCP callbacks, fall back to `NOT_CONNECT`
and rearm the backoff. -/
def clientOnTcpDataEof (c : ClientState) (now : Nat) :
    ClientState × List ClientEffect :=
  ({ c with
      tcpSocketGen := c.tcpSocketGen + 1
      tcpState := STATE_TCP_NOT_CONNECT
      nextTryConnectTime := (now + 10000) % U64 },
   [ClientEffect.tcpClose, ClientEffect.createTcpSocket,
    ClientEffect.bindTcpEvent])

/-- `Client::OnTcpData(data)`: decode a `PingPacket` and feed the TCP pinger;
a decode failure is caught and only logged.  The `Mdr` codec lives outside
this repository, so the decoder is a parameter. -/
def clientOnTcpData (dec : List Nat → Option PingPacket) (c : ClientState)
    (now : Nat) (data : List Nat) : ClientState :=
  match dec data with
  | some p => { c with tcpPinger := c.tcpPinger.recv now p }
  | none => c

/-- `Client::OnUdpData(const EndPoint&, data)`: identical to the TCP data
callback but on the UDP pinger; the sender endpoint parameter is unnamed and
unused in the C++ body. -/
def clientOnUdpData (dec : List Nat → Option PingPacket) (c : ClientState)
    (now : Nat) (_sender : Nat × Nat) (data : List Nat) : ClientState :=
  match dec data with
  | some p => { c with udpPinger := c.udpPinger.recv now p }
  | none => c

/-- Server-side `struct Session`: the last-activity clock, the `Dead` flag,
and whether `Socket.Close()` has been called on its channel. -/
structure Session where
  lastAlive : Nat
  dead : Bool
  closed : Bool
deriving DecidableEq

/-- `Session::OnTcpError(error)`: log and set `Dead = true`; the channel is
not closed here. -/
def Session.onTcpError (s : Session) : Session :=
  { s with dead := true }

/-- `Session::OnTcpData(data)`: refresh `LastAlive` and echo the bytes back
(the echo is a socket write with no session-state effect). -/
def Session.onTcpData (s : Session) (now : Nat) : Session :=
  { s with lastAlive := now }

/-- `Session::OnTcpDataEof()`: close the channel and set `Dead = true`. -/
def Session.onTcpDataEof (s : Session) : Session :=
  { s with closed := true, dead := true }

/-- One iteration bundle of `Server::OnTick`: walk the session vector once;
erase entries already `Dead` (the `erase` + `continue` pattern), close and
mark — but keep — live entries idle for 60000 ms, leave the rest alone. -/
def serverTick (now : Nat) : List Session → List Session
  | [] => []
  | s :: rest =>
    if s.dead then serverTick now rest
    else if s.lastAlive + 60000 ≤ now then
      { s with closed := true, dead := true } :: serverTick now rest
    else s :: serverTick now rest

/-- The per-session transformation a single tick applies to a live session:
close-and-kill it when idle for 60000 ms, otherwise leave it unchanged. -/
def markIdle (now : Nat) (s : Session) : Session :=
  if s.lastAlive + 60000 ≤ now then { s with closed := true, dead := true }
  else s

/-- Appending a fresh unacknowledged slot adds one pending probe. -/
theorem countFalse_append_false (w : List Bool) :
    countFalse (w ++ [false]) = countFalse w + 1 := by
  induction w with
  | nil => rfl
  | cons b rest ih =>
    show (if b = true then 0 else 1) + countFalse (rest ++ [false]) =
      countFalse (b :: rest) + 1
    rw [ih]
    simp only [countFalse]
    omega

/-- Acknowledging a pending slot removes exactly one pending probe. -/
theorem countFalse_set (w : List Bool) :
    ∀ i, i < w.length → w.getD i false = false →
      countFalse (w.set i true) + 1 = countFalse w := by
  induction w with
  | nil => intro i hi _; simp at hi
  | cons b rest ih =>
    intro i hi hb
    cases i with
    | zero =>
      simp only [List.getD_cons_zero] at hb
      subst hb
      simp [List.set, countFalse]
      omega
    | succ j =>
      simp only [List.getD_cons_succ] at hb
      have hj : j < rest.length := by simpa using hi
      have := ih j hj hb
      simp only [List.set, countFalse]
      omega

/-- The eviction loop leaves either an empty window or one strictly below the
size threshold `timeout / interval`. -/
theorem evictLoop_len (interval timeout : Nat) :
    ∀ (w : List Bool) (lost : Nat),
      (evictLoop interval timeout w lost).1 = [] ∨
      (evictLoop interval timeout w lost).1.length * interval < timeout := by
  intro w
  induction w with
  | nil => intro lost; left; rfl
  | cons b rest ih =>
    intro lost
    rw [evictLoop]
    split
    · exact ih _
    · right
      rename_i hcond
      show (b :: rest).length * interval < timeout
      omega

/-- The eviction loop moves every popped unacknowledged slot into the lost
counter: `lost + pending` is preserved (absent `uint32_t` wrap-around). -/
theorem evictLoop_count (interval timeout : Nat) :
    ∀ (w : List Bool) (lost : Nat), lost + countFalse w < U32 →
      (evictLoop interval timeout w lost).2 +
        countFalse (evictLoop interval timeout w lost).1 = lost + countFalse w := by
  intro w
  induction w with
  | nil => intro lost _; rfl
  | cons b rest ih =>
    intro lost h
    rw [evictLoop]
    split
    · split
      · rename_i hbtrue
        have hcf : countFalse (b :: rest) = countFalse rest := by
          simp [countFalse, hbtrue]
        have hrest : lost + countFalse rest < U32 := by omega
        have hih := ih lost hrest
        omega
      · rename_i hbfalse
        have hb : b = false := by simpa using hbfalse
        have hcf : countFalse (b :: rest) = 1 + countFalse rest := by
          simp [countFalse, hb]
        have h1 : lost + 1 < U32 := by omega
        rw [Nat.mod_eq_of_lt h1]
        have hrest : lost + 1 + countFalse rest < U32 := by omega
        have hih := ih (lost + 1) hrest
        omega
    · rfl

/-- One operation preserves the exactly-once accounting invariant
`TotalSent = Lost + Acked + pending` together with the bound
`TotalSent ≤ n` (which rules out `uint32_t` wrap-around). -/
theorem pinger_step_inv (op : PingerOp) (s : Pinger) (n : Nat)
    (h1 : s.totalPacket = s.packetLost + s.availablePacket + countFalse s.pingWindow)
    (h2 : s.totalPacket ≤ n) (hn : n + 1 < U32) :
    (PingerOp.apply s op).totalPacket =
      (PingerOp.apply s op).packetLost + (PingerOp.apply s op).availablePacket +
        countFalse (PingerOp.apply s op).pingWindow ∧
    (PingerOp.apply s op).totalPacket ≤ n + 1 := by
  cases op with
  | reset =>
    exact ⟨rfl, by simp [PingerOp.apply, Pinger.reset]⟩
  | update now =>
    simp only [PingerOp.apply, Pinger.update]
    split
    · dsimp only
      have hev := evictLoop_count s.interval s.timeout s.pingWindow s.packetLost
        (by omega)
      have hmod : (s.totalPacket + 1) % U32 = s.totalPacket + 1 :=
        Nat.mod_eq_of_lt (by omega)
      have happ := countFalse_append_false
        (evictLoop s.interval s.timeout s.pingWindow s.packetLost).1
      constructor
      · simp only [hmod]
        omega
      · simp only [hmod]
        omega
    · dsimp only
      exact ⟨h1, by omega⟩
  | recv now p =>
    simp only [PingerOp.apply, Pinger.recv]
    split
    · exact ⟨h1, by omega⟩
    · split
      · exact ⟨h1, by omega⟩
      · rename_i hoff hget
        dsimp only
        have hlt : recvOffset s p < s.pingWindow.length := by omega
        have hfalse : s.pingWindow.getD (recvOffset s p) false = false := by
          simpa using hget
        have hset := countFalse_set s.pingWindow (recvOffset s p) hlt hfalse
        have hmod : (s.availablePacket + 1) % U32 = s.availablePacket + 1 :=
          Nat.mod_eq_of_lt (by omega)
        constructor
        · simp only [hmod]
          omega
        · omega

/-- Along any run from a state satisfying the accounting invariant, the
invariant persists as long as the operation count keeps every counter
below `2^32`. -/
theorem pinger_run_inv (ops : List PingerOp) :
    ∀ (s : Pinger) (n : Nat),
      s.totalPacket = s.packetLost + s.availablePacket + countFalse s.pingWindow →
      s.totalPacket ≤ n → n + ops.length < U32 →
      ((s.run ops).totalPacket =
        (s.run ops).packetLost + (s.run ops).availablePacket +
          countFalse (s.run ops).pingWindow ∧
       (s.run ops).totalPacket ≤ n + ops.length) := by
  induction ops with
  | nil =>
    intro s n h1 h2 _
    exact ⟨h1, by simpa using h2⟩
  | cons op rest ih =>
    intro s n h1 h2 hb
    have hlen : (op :: rest).length = rest.length + 1 := rfl
    have hstep := pinger_step_inv op s n h1 h2 (by omega)
    have hrec := ih (PingerOp.apply s op) (n + 1) hstep.1 hstep.2 (by omega)
    simp only [Pinger.run]
    refine ⟨hrec.1, ?_⟩
    have := hrec.2
    omega

/-- Along any run the construction parameters are untouched and the window
obeys `length * Interval ≤ Timeout + Interval` (at most one slot beyond the
timeout threshold). -/
theorem pinger_run_window (ops : List PingerOp) :
    ∀ s : Pinger,
      s.pingWindow.length * s.interval ≤ s.timeout + s.interval →
      ((s.run ops).interval = s.interval ∧ (s.run ops).timeout = s.timeout ∧
       (s.run ops).pingWindow.length * s.interval ≤ s.timeout + s.interval) := by
  induction ops with
  | nil => intro s h; exact ⟨rfl, rfl, h⟩
  | cons op rest ih =>
    intro s h
    have hstep : (PingerOp.apply s op).interval = s.interval ∧
        (PingerOp.apply s op).timeout = s.timeout ∧
        (PingerOp.apply s op).pingWindow.length * s.interval ≤
          s.timeout + s.interval := by
      cases op with
      | reset =>
        refine ⟨rfl, rfl, ?_⟩
        simp [PingerOp.apply, Pinger.reset]
      | recv now p =>
        simp only [PingerOp.apply, Pinger.recv]
        split
        · exact ⟨rfl, rfl, h⟩
        · split
          · exact ⟨rfl, rfl, h⟩
          · refine ⟨rfl, rfl, ?_⟩
            dsimp only
            rw [List.length_set]
            exact h
      | update now =>
        simp only [PingerOp.apply, Pinger.update]
        split
        · refine ⟨rfl, rfl, ?_⟩
          dsimp only
          rw [List.length_append]
          rcases evictLoop_len s.interval s.timeout s.pingWindow s.packetLost
            with h0 | hlt
          · rw [h0]
            simp
          · have hone : ([false] : List Bool).length = 1 := rfl
            rw [hone, Nat.add_mul, Nat.one_mul]
            exact Nat.add_le_add_right (Nat.le_of_lt hlt) s.interval
        · exact ⟨rfl, rfl, h⟩
    have hpre : (PingerOp.apply s op).pingWindow.length *
        (PingerOp.apply s op).interval ≤
        (PingerOp.apply s op).timeout + (PingerOp.apply s op).interval := by
      rw [hstep.1, hstep.2.1]
      exact hstep.2.2
    have hrec := ih (PingerOp.apply s op) hpre
    simp only [Pinger.run]
    refine ⟨?_, ?_, ?_⟩
    · rw [hrec.1, hstep.1]
    · rw [hrec.2.1, hstep.2.1]
    · have h3 := hrec.2.2
      rw [hstep.1, hstep.2.1] at h3
      exact h3

/-- The `size_t` index expression `(len + 2^64 - diff) % 2^64` lands outside
the window whenever `diff` is zero or exceeds the window length. -/
theorem recvOffset_out (len diff : Nat) (hlen : len < U32) (hdiff : diff < U32)
    (h : diff = 0 ∨ len < diff) : len ≤ (len + U64 - diff) % U64 := by
  have hU : U32 < U64 := by decide
  rcases h with h0 | hlt
  · subst h0
    have he : len + U64 - 0 = len + U64 := by omega
    rw [he, Nat.add_mod_right, Nat.mod_eq_of_lt (by omega)]
  · have hx : len + U64 - diff < U64 := by omega
    rw [Nat.mod_eq_of_lt hx]
    omega

/-- The `size_t` index expression recovers the plain index `len - diff`
whenever `0 < diff ≤ len`. -/
theorem recvOffset_in (len diff : Nat) (hlen : len < U32) (h1 : 0 < diff)
    (h2 : diff ≤ len) : (len + U64 - diff) % U64 = len - diff := by
  have hU : U32 < U64 := by decide
  have he : len + U64 - diff = (len - diff) + U64 := by omega
  rw [he, Nat.add_mod_right, Nat.mod_eq_of_lt (by omega)]

/-- Claim C1 (amended): for every sequence of `Tick`/`OnAck`/`Reset` calls
in which fewer than `2^32` operations occur (so no `uint32_t` counter wraps),
`Lost + Acked ≤ TotalSent` holds, and more precisely `TotalSent` always equals
`Lost + Acked` plus the number of still-pending unacknowledged window slots:
each probe's outcome is counted exactly once, upon acknowledgment or upon
eviction by a later sending `Tick`. -/
theorem claim1_exactly_once (interval timeout : Nat) (ops : List PingerOp)
    (h : ops.length < U32) :
    ((Pinger.init interval timeout).run ops).packetLost +
        ((Pinger.init interval timeout).run ops).availablePacket ≤
      ((Pinger.init interval timeout).run ops).totalPacket ∧
    ((Pinger.init interval timeout).run ops).totalPacket =
      ((Pinger.init interval timeout).run ops).packetLost +
        ((Pinger.init interval timeout).run ops).availablePacket +
        countFalse ((Pinger.init interval timeout).run ops).pingWindow := by
  have hrun := pinger_run_inv ops (Pinger.init interval timeout) 0 rfl
    (Nat.le_refl 0) (by omega)
  exact ⟨by omega, hrun.1⟩

/-- Witness for `claim1_exactly_once` at a concrete one-operation run. -/
theorem claim1_witness :
    ([PingerOp.update 0] : List PingerOp).length < U32 ∧
    ((Pinger.init 1000 5000).run [PingerOp.update 0]).packetLost +
        ((Pinger.init 1000 5000).run [PingerOp.update 0]).availablePacket ≤
      ((Pinger.init 1000 5000).run [PingerOp.update 0]).totalPacket :=
  ⟨by decide, (claim1_exactly_once 1000 5000 [PingerOp.update 0] (by decide)).1⟩

/-- Claim C1 counterexample: with Interval 1000 and Timeout 5000, send one
probe at t = 0 and perform no further sends (the Update at t = 500 is not due
and the Recv at t = 10^9 carries a never-sent sequence, so both are no-ops).
By t = 10^9 the sole probe has aged far beyond the timeout, yet
`Lost + Acked = 0 ≠ 1 = TotalSent`: aged-out probes are scored only inside a
later sending `Tick`, so equality is never reached without further sends. -/
theorem claim1_counterexample :
    ((Pinger.init 1000 5000).run
        [PingerOp.update 0, PingerOp.update 500,
         PingerOp.recv 1000000000 ⟨9, 123⟩]).packetLost = 0 ∧
    ((Pinger.init 1000 5000).run
        [PingerOp.update 0, PingerOp.update 500,
         PingerOp.recv 1000000000 ⟨9, 123⟩]).availablePacket = 0 ∧
    ((Pinger.init 1000 5000).run
        [PingerOp.update 0, PingerOp.update 500,
         PingerOp.recv 1000000000 ⟨9, 123⟩]).totalPacket = 1 := by
  decide

/-- Claim C2 counterexample: in the spec's worked example the Tick at
t = 6000 increments `Lost` to 1, not 2 — the eviction loop stops as soon as
the window size drops below `Timeout / Interval`, so only seq 0 is evicted. -/
theorem claim2_counterexample :
    ((Pinger.init 1000 5000).run c2ops).packetLost = 1 ∧
    ((Pinger.init 1000 5000).run c2ops).packetLost ≠ 2 := by
  decide

/-- Claim C2 (amended): the five Ticks emit seqs 0..4, the acknowledgment of
seq 2 at t = 2100 records latency 100 ms and makes `Acked = 1`, and the Tick
at t = 6000 evicts only seq 0 (the eviction loop pops while
`size * Interval ≥ Timeout`, which fails once the size reaches 4) and
increments `Lost` by exactly 1. -/
theorem claim2_amended :
    (((Pinger.init 1000 5000)).update 0).1 = some ⟨0, 0⟩ ∧
    (((Pinger.init 1000 5000).run (c2ops.take 1)).update 1000).1 = some ⟨1, 1000⟩ ∧
    (((Pinger.init 1000 5000).run (c2ops.take 2)).update 2000).1 = some ⟨2, 2000⟩ ∧
    (((Pinger.init 1000 5000).run (c2ops.take 3)).update 3000).1 = some ⟨3, 3000⟩ ∧
    (((Pinger.init 1000 5000).run (c2ops.take 4)).update 4000).1 = some ⟨4, 4000⟩ ∧
    ((Pinger.init 1000 5000).run (c2ops.take 6)).availablePacket = 1 ∧
    ((Pinger.init 1000 5000).run (c2ops.take 6)).latencyTotal = 100 ∧
    ((Pinger.init 1000 5000).run (c2ops.take 6)).packetLost = 0 ∧
    ((Pinger.init 1000 5000).run c2ops).packetLost = 0 + 1 ∧
    ((Pinger.init 1000 5000).run c2ops).totalPacket = 6 ∧
    ((Pinger.init 1000 5000).run c2ops).availablePacket = 1 := by
  decide

/-- Claim C6: `OnAck` is a no-op — the whole state survives unchanged — when
the acknowledged `Seq` is older than `NextSeq` minus the window length, or at
least as new as `NextSeq` (newer than the most recently sent `Seq`), or lands
on a window slot that is already acknowledged.  The side conditions say the
state is sane: `NextSeq` is a `uint32_t` value, the packet's `Seq` is a
`uint32_t` value, and no more slots are outstanding than probes were sent. -/
theorem claim6_recv_noop (s : Pinger) (now : Nat) (p : PingPacket)
    (hseq : s.nextSeq < U32) (hp : p.seq < U32)
    (hlen : s.pingWindow.length ≤ s.nextSeq)
    (h : p.seq + s.pingWindow.length < s.nextSeq ∨
         s.nextSeq ≤ p.seq ∨
         (p.seq < s.nextSeq ∧ s.nextSeq ≤ p.seq + s.pingWindow.length ∧
          s.pingWindow.getD (s.pingWindow.length - (s.nextSeq - p.seq)) false
            = true)) :
    s.recv now p = s := by
  have hk : p.seq % U32 = p.seq := Nat.mod_eq_of_lt hp
  rcases h with ha | hb | hc
  · have hd : (s.nextSeq + U32 - p.seq % U32) % U32 = s.nextSeq - p.seq := by
      rw [hk]
      have he : s.nextSeq + U32 - p.seq = (s.nextSeq - p.seq) + U32 := by omega
      rw [he, Nat.add_mod_right, Nat.mod_eq_of_lt (by omega)]
    have hout : s.pingWindow.length ≤ recvOffset s p := by
      unfold recvOffset
      rw [hd]
      exact recvOffset_out _ _ (by omega) (by omega) (Or.inr (by omega))
    unfold Pinger.recv
    rw [if_pos hout]
  · by_cases hb2 : p.seq = s.nextSeq
    · have hd : (s.nextSeq + U32 - p.seq % U32) % U32 = 0 := by
        rw [hk, hb2]
        have he : s.nextSeq + U32 - s.nextSeq = U32 := by omega
        rw [he, Nat.mod_self]
      have hout : s.pingWindow.length ≤ recvOffset s p := by
        unfold recvOffset
        rw [hd]
        exact recvOffset_out _ _ (by omega) (by decide) (Or.inl rfl)
      unfold Pinger.recv
      rw [if_pos hout]
    · have hgt : s.nextSeq < p.seq := Nat.lt_of_le_of_ne hb
        (fun e => hb2 e.symm)
      have hd : (s.nextSeq + U32 - p.seq % U32) % U32
          = U32 - (p.seq - s.nextSeq) := by
        rw [hk]
        have he : s.nextSeq + U32 - p.seq = U32 - (p.seq - s.nextSeq) := by
          omega
        rw [he, Nat.mod_eq_of_lt (by omega)]
      have hout : s.pingWindow.length ≤ recvOffset s p := by
        unfold recvOffset
        rw [hd]
        exact recvOffset_out _ _ (by omega) (by omega) (Or.inr (by omega))
      unfold Pinger.recv
      rw [if_pos hout]
  · obtain ⟨hc1, hc2, hc3⟩ := hc
    have hd : (s.nextSeq + U32 - p.seq % U32) % U32 = s.nextSeq - p.seq := by
      rw [hk]
      have he : s.nextSeq + U32 - p.seq = (s.nextSeq - p.seq) + U32 := by omega
      rw [he, Nat.add_mod_right, Nat.mod_eq_of_lt (by omega)]
    have hoff : recvOffset s p
        = s.pingWindow.length - (s.nextSeq - p.seq) := by
      unfold recvOffset
      rw [hd]
      exact recvOffset_in _ _ (by omega) (by omega) (by omega)
    have hnotout : ¬ (s.pingWindow.length ≤ recvOffset s p) := by
      rw [hoff]
      omega
    unfold Pinger.recv
    rw [if_neg hnotout, hoff, if_pos hc3]

/-- Witness for `claim6_recv_noop`: after two sends (`NextSeq = 2`, window
length 2) an acknowledgment carrying the future sequence 7 is ignored. -/
theorem claim6_witness :
    ((Pinger.init 1000 5000).run
        [PingerOp.update 0, PingerOp.update 1000]).nextSeq < U32 ∧
    (7 : Nat) < U32 ∧
    ((Pinger.init 1000 5000).run
        [PingerOp.update 0, PingerOp.update 1000]).pingWindow.length ≤
      ((Pinger.init 1000 5000).run
        [PingerOp.update 0, PingerOp.update 1000]).nextSeq ∧
    (((Pinger.init 1000 5000).run
        [PingerOp.update 0, PingerOp.update 1000]).recv 2100 ⟨7, 50⟩ =
      (Pinger.init 1000 5000).run [PingerOp.update 0, PingerOp.update 1000]) :=
  ⟨by decide, by decide, by decide,
   claim6_recv_noop ((Pinger.init 1000 5000).run
       [PingerOp.update 0, PingerOp.update 1000]) 2100 ⟨7, 50⟩
     (by decide) (by decide) (by decide) (Or.inr (Or.inl (by decide)))⟩

/-- Claim C7: after `Reset()` the snapshot is all zeroes (max/min latency
included), the next `Update` call emits a probe immediately whatever `now`
is, and `NextSeq` keeps its pre-reset value. -/
theorem claim7_reset (s : Pinger) (now : Nat) :
    s.reset.getStatistic = ⟨0, 0, 0, 0, 0, 0⟩ ∧
    (s.reset.update now).1 = some ⟨s.nextSeq, now⟩ ∧
    s.reset.nextSeq = s.nextSeq := by
  refine ⟨rfl, ?_, rfl⟩
  have h0 : s.reset.nextSendTime = 0 := rfl
  unfold Pinger.update
  rw [h0, if_pos (Nat.zero_le now)]
  rfl

/-- Claim C8: for every state reachable by `Tick`/`OnAck`/`Reset` calls the
window length times `Interval` never exceeds `Timeout` by more than one slot,
and so, for positive `Interval`, the window never holds more than
`Timeout / Interval + 1` entries. -/
theorem claim8_window_bounded (interval timeout : Nat) (ops : List PingerOp) :
    ((Pinger.init interval timeout).run ops).pingWindow.length * interval ≤
        timeout + interval ∧
    (0 < interval →
      ((Pinger.init interval timeout).run ops).pingWindow.length ≤
        timeout / interval + 1) := by
  have h := pinger_run_window ops (Pinger.init interval timeout)
    (by simp [Pinger.init])
  have hb : ((Pinger.init interval timeout).run ops).pingWindow.length *
      interval ≤ timeout + interval := h.2.2
  refine ⟨hb, ?_⟩
  intro hi
  have h2 : ((Pinger.init interval timeout).run ops).pingWindow.length ≤
      (timeout + interval) / interval := (Nat.le_div_iff_mul_le hi).mpr hb
  rwa [Nat.add_div_right _ hi] at h2

/-- Witness for `claim8_window_bounded` at a concrete run. -/
theorem claim8_witness :
    (0 : Nat) < 1000 ∧
    ((Pinger.init 1000 5000).run [PingerOp.update 0]).pingWindow.length ≤
      5000 / 1000 + 1 :=
  ⟨by decide,
   (claim8_window_bounded 1000 5000 [PingerOp.update 0]).2 (by decide)⟩

/-- Claim C3 counterexample: on a connect failure (`err = 1`) the client
keeps the very socket object that failed — the generation is unchanged, no
fresh socket is created and no callbacks are rebound — contradicting the
claim that every TCP failure edge discards the old channel. -/
theorem claim3_counterexample :
    (clientOnTcpConnected (clientInit 1000 10000) 5 1).1.tcpSocketGen =
      (clientInit 1000 10000).tcpSocketGen ∧
    ClientEffect.createTcpSocket ∉
      (clientOnTcpConnected (clientInit 1000 10000) 5 1).2 ∧
    ClientEffect.bindTcpEvent ∉
      (clientOnTcpConnected (clientInit 1000 10000) 5 1).2 ∧
    (clientOnTcpConnected (clientInit 1000 10000) 5 1).1.tcpState =
      STATE_TCP_NOT_CONNECT := by
  decide

/-- Claim C3 (amended): all three failure edges set `NOT_CONNECT` and rearm
the 10 s backoff, but only the channel-error and remote-EOF edges discard the
socket and create a fresh one with rebound callbacks; the connect-failure
edge keeps the same socket object, which the next tick retries. -/
theorem claim3_failure_edges (c : ClientState) (now : Nat) (err : Int)
    (herr : err ≠ 0) :
    ((clientOnTcpConnected c now err).1.tcpState = STATE_TCP_NOT_CONNECT ∧
     (clientOnTcpConnected c now err).1.nextTryConnectTime =
       (now + 10000) % U64 ∧
     (clientOnTcpConnected c now err).1.tcpSocketGen = c.tcpSocketGen ∧
     ClientEffect.createTcpSocket ∉ (clientOnTcpConnected c now err).2) ∧
    ((clientOnTcpError c now).1.tcpState = STATE_TCP_NOT_CONNECT ∧
     (clientOnTcpError c now).1.nextTryConnectTime = (now + 10000) % U64 ∧
     (clientOnTcpError c now).1.tcpSocketGen = c.tcpSocketGen + 1 ∧
     ClientEffect.createTcpSocket ∈ (clientOnTcpError c now).2 ∧
     ClientEffect.bindTcpEvent ∈ (clientOnTcpError c now).2) ∧
    ((clientOnTcpDataEof c now).1.tcpState = STATE_TCP_NOT_CONNECT ∧
     (clientOnTcpDataEof c now).1.nextTryConnectTime = (now + 10000) % U64 ∧
     (clientOnTcpDataEof c now).1.tcpSocketGen = c.tcpSocketGen + 1 ∧
     ClientEffect.tcpClose ∈ (clientOnTcpDataEof c now).2 ∧
     ClientEffect.createTcpSocket ∈ (clientOnTcpDataEof c now).2 ∧
     ClientEffect.bindTcpEvent ∈ (clientOnTcpDataEof c now).2) := by
  refine ⟨?_, ?_, ?_⟩
  · unfold clientOnTcpConnected
    rw [if_neg herr]
    exact ⟨rfl, rfl, rfl, by simp⟩
  · exact ⟨rfl, rfl, rfl, by simp [clientOnTcpError],
      by simp [clientOnTcpError]⟩
  · exact ⟨rfl, rfl, rfl, by simp [clientOnTcpDataEof],
      by simp [clientOnTcpDataEof], by simp [clientOnTcpDataEof]⟩

/-- Witness for `claim3_failure_edges` at a concrete client and error. -/
theorem claim3_witness :
    (1 : Int) ≠ 0 ∧
    (clientOnTcpError (clientInit 1000 10000) 7).1.tcpSocketGen =
      (clientInit 1000 10000).tcpSocketGen + 1 :=
  ⟨by decide,
   (claim3_failure_edges (clientInit 1000 10000) 7 1 (by decide)).2.1.2.2.1⟩

/-- Claim C9: while the TCP channel is not `CONNECTED`, a (non-reporting)
tick still calls `Update` on the TCP estimator — a due probe increments
`TotalSent` — yet no TCP write effect is emitted, so the counted probe is
never transmitted. -/
theorem claim9_disconnected_counting (c : ClientState) (now : Nat)
    (hstate : ¬ c.tcpState = STATE_TCP_CONNECTED)
    (hstat : now < c.nextPingStatTime)
    (hdue : c.tcpPinger.nextSendTime ≤ now) :
    (clientOnTick c now).1.tcpPinger.totalPacket =
      (c.tcpPinger.totalPacket + 1) % U32 ∧
    ∀ p : PingPacket, ClientEffect.tcpWrite p ∉ (clientOnTick c now).2 := by
  unfold clientOnTick
  by_cases h1 : c.tcpState = STATE_TCP_NOT_CONNECT ∧ c.nextTryConnectTime ≤ now
  · rw [if_pos h1]
    dsimp only
    unfold Pinger.update
    rw [if_pos hdue]
    dsimp only
    rw [if_neg (by decide : ¬ STATE_TCP_CONNECTING = STATE_TCP_CONNECTED),
      if_neg (by omega : ¬ c.nextPingStatTime ≤ now)]
    refine ⟨rfl, ?_⟩
    intro p
    split
    · simp
    · simp
  · rw [if_neg h1]
    dsimp only
    unfold Pinger.update
    rw [if_pos hdue]
    dsimp only
    rw [if_neg hstate, if_neg (by omega : ¬ c.nextPingStatTime ≤ now)]
    refine ⟨rfl, ?_⟩
    intro p
    split
    · simp
    · simp

/-- Witness for `claim9_disconnected_counting` at a concrete client. -/
theorem claim9_witness :
    (¬ (clientInit 1000 10000).tcpState = STATE_TCP_CONNECTED) ∧
    (0 : Nat) < 1 ∧
    (clientOnTick { clientInit 1000 10000 with nextPingStatTime := 1 }
        0).1.tcpPinger.totalPacket = 1 % U32 :=
  ⟨by decide, by decide,
   (claim9_disconnected_counting
      { clientInit 1000 10000 with nextPingStatTime := 1 } 0
      (by decide) (by decide) (by decide)).1⟩

/-- Claim C10: the client's UDP data callback ignores the sender endpoint:
two datagrams with the same payload from different sources have identical
effect, and whenever the payload decodes, the record is fed to the UDP
estimator regardless of which host sent it. -/
theorem claim10_sender_ignored (dec : List Nat → Option PingPacket)
    (c : ClientState) (now : Nat) (e1 e2 : Nat × Nat) (data : List Nat) :
    clientOnUdpData dec c now e1 data = clientOnUdpData dec c now e2 data ∧
    (∀ p : PingPacket, dec data = some p →
      clientOnUdpData dec c now e1 data =
        { c with udpPinger := c.udpPinger.recv now p }) := by
  constructor
  · rfl
  · intro p hp
    unfold clientOnUdpData
    rw [hp]

/-- Witness for `claim10_sender_ignored` with a concrete decoder, payload and
two distinct sender endpoints. -/
theorem claim10_witness :
    (fun _ : List Nat => some (⟨3, 4⟩ : PingPacket)) [0] = some ⟨3, 4⟩ ∧
    clientOnUdpData (fun _ => some ⟨3, 4⟩) (clientInit 1000 10000) 9
        (1, 2) [0] =
      clientOnUdpData (fun _ => some ⟨3, 4⟩) (clientInit 1000 10000) 9
        (8, 8) [0] ∧
    clientOnUdpData (fun _ => some ⟨3, 4⟩) (clientInit 1000 10000) 9
        (1, 2) [0] =
      { clientInit 1000 10000 with
          udpPinger := (clientInit 1000 10000).udpPinger.recv 9 ⟨3, 4⟩ } :=
  ⟨rfl,
   (claim10_sender_ignored (fun _ => some ⟨3, 4⟩) (clientInit 1000 10000) 9
      (1, 2) (8, 8) [0]).1,
   (claim10_sender_ignored (fun _ => some ⟨3, 4⟩) (clientInit 1000 10000) 9
      (1, 2) (8, 8) [0]).2 ⟨3, 4⟩ rfl⟩

/-- Claim C4 counterexample: the session error callback marks the session
dead but leaves the channel unclosed — only the EOF callback closes it — so
the claim that both callbacks close the channel fails. -/
theorem claim4_counterexample :
    (Session.onTcpError ⟨0, false, false⟩).dead = true ∧
    (Session.onTcpError ⟨0, false, false⟩).closed = false := by
  decide

/-- Claim C4 (amended): the EOF callback closes the channel and sets `Dead`;
the error callback sets `Dead` without closing the channel; and `Dead` is
terminal — no session callback ever clears it. -/
theorem claim4_dead_terminal (s : Session) (now : Nat) :
    s.onTcpError.dead = true ∧
    s.onTcpError.closed = s.closed ∧
    s.onTcpDataEof.dead = true ∧
    s.onTcpDataEof.closed = true ∧
    (s.dead = true →
      s.onTcpError.dead = true ∧ (s.onTcpData now).dead = true ∧
      s.onTcpDataEof.dead = true) :=
  ⟨rfl, rfl, rfl, rfl, fun h => ⟨rfl, h, rfl⟩⟩

/-- Witness for `claim4_dead_terminal` on a concrete dead session. -/
theorem claim4_witness :
    ((⟨5, true, false⟩ : Session).dead = true) ∧
    ((Session.onTcpData ⟨5, true, false⟩ 99).dead = true) :=
  ⟨rfl, ((claim4_dead_terminal ⟨5, true, false⟩ 99).2.2.2.2 rfl).2.1⟩

/-- One pass of `Server::OnTick` is exactly: drop the sessions already dead,
then close-and-kill (but keep) the live ones idle for 60000 ms. -/
theorem serverTick_filter_map (now : Nat) :
    ∀ ss : List Session,
      serverTick now ss = (ss.filter (fun s => !s.dead)).map (markIdle now) := by
  intro ss
  induction ss with
  | nil => rfl
  | cons s rest ih =>
    rw [serverTick]
    by_cases hd : s.dead = true
    · rw [if_pos hd, ih]
      have hf : List.filter (fun s => !s.dead) (s :: rest) =
          List.filter (fun s => !s.dead) rest := by
        simp [List.filter_cons, hd]
      rw [hf]
    · have hf : List.filter (fun s => !s.dead) (s :: rest) =
          s :: List.filter (fun s => !s.dead) rest := by
        simp [List.filter_cons, hd]
      rw [if_neg hd, hf, List.map_cons, ih]
      by_cases hidle : s.lastAlive + 60000 ≤ now
      · rw [if_pos hidle]
        have hm : markIdle now s = { s with closed := true, dead := true } := by
          rw [markIdle, if_pos hidle]
        rw [hm]
      · rw [if_neg hidle]
        have hm : markIdle now s = s := by
          rw [markIdle, if_neg hidle]
        rw [hm]

/-- Claim C5: one server tick removes exactly the sessions already marked
dead and closes-and-marks (without removing) every live session idle for
60000 ms; such a session therefore survives the marking tick and is removed
by the following tick. -/
theorem claim5_tick_reaping (now now2 : Nat) (ss : List Session) :
    serverTick now ss =
      (ss.filter (fun s => !s.dead)).map (markIdle now) ∧
    (∀ s : Session, s.dead = false → s.lastAlive + 60000 ≤ now →
      serverTick now [s] = [{ s with closed := true, dead := true }] ∧
      serverTick now2 (serverTick now [s]) = []) := by
  refine ⟨serverTick_filter_map now ss, ?_⟩
  intro s hdead hidle
  have h1 : serverTick now [s] = [{ s with closed := true, dead := true }] := by
    rw [serverTick, if_neg (by simp [hdead]), if_pos hidle]
    rfl
  refine ⟨h1, ?_⟩
  rw [h1, serverTick, if_pos rfl]
  rfl

/-- Witness for `claim5_tick_reaping`: a session idle since t = 0 is marked
dead by the tick at t = 70000 and removed by the tick at t = 71000. -/
theorem claim5_witness :
    ((⟨0, false, false⟩ : Session).dead = false) ∧
    ((0 : Nat) + 60000 ≤ 70000) ∧
    serverTick 70000 [(⟨0, false, false⟩ : Session)] =
      [(⟨0, true, true⟩ : Session)] ∧
    serverTick 71000 (serverTick 70000 [(⟨0, false, false⟩ : Session)]) = [] :=
  ⟨rfl, by decide,
   ((claim5_tick_reaping 70000 71000 [⟨0, false, false⟩]).2
      ⟨0, false, false⟩ rfl (by decide)).1,
   ((claim5_tick_reaping 70000 71000 [⟨0, false, false⟩]).2
      ⟨0, false, false⟩ rfl (by decide)).2⟩

end PingTools
